import Mathlib

/-!
Shallow embedding of the entitlement and payment-integrity subsystem of the
BrainHouse server (`src/server.js` together with the mongoose models in
`src/models`).  Persistent state (the MongoDB collections) is modelled as
explicit lists threaded through each request handler; the external payment
provider's order store is a separate read/append list.  Each Express handler
becomes a pure Lean function from the request body and the current state to a
response value and the next state.  One point needs care: `server.js` calls
`crypto.createHmac` (line 322) but never imports Node's `crypto` module, so
in the shipped program every verify-payment request past the missing-fields
guard throws (the bare identifier is at best the global WebCrypto object,
which has no `createHmac`) and lands in the handler's catch-all; the
embedding models that observable behaviour — 400 for missing fields, 500
otherwise — directly, and the branches below the throwing statement, being
unreachable, are not modelled as reachable behaviour.
-/

namespace BrainHouse

/-- `subscriptionStatus` of `userSchema` in `src/models/user.js`:
`enum: ["free", "pro"]`, default `"free"`. -/
inductive SubscriptionStatus where
  | free
  | pro
deriving DecidableEq, Repr

/-- An `Account` document (`userSchema` in `src/models/user.js`).
`clerkUserId` is the unique external identifier; mongoose `_id` is modelled
by `clerkUserId` itself, which is in bijection with documents thanks to the
`unique: true` constraint.  The `createdAt`/`updatedAt` timestamps carry no
behaviour relevant to the claims and are omitted. -/
structure Account where
  clerkUserId : String
  subscriptionStatus : SubscriptionStatus
  chatAttempts : Nat
deriving DecidableEq, Repr

/-- A `ChatTurn` document (`messageSchema`): owning user, content, originator
flag and the server-assigned timestamp (modelled as a natural number). -/
structure ChatMessage where
  userId : String
  message : String
  isFromUser : Bool
  timestamp : Nat
deriving DecidableEq, Repr

/-- Payment status as used by `src/server.js` (`status: "completed"`) within
the `paymentSchema` enum `["pending", "completed", "failed"]`. -/
inductive PaymentStatus where
  | pending
  | completed
  | failed
deriving DecidableEq, Repr

/-- A `Payment` document in the shape that `new Payment({...})` at
`src/server.js` lines 363-373 spells out: user reference, amount and
currency from the fetched order, status, provider order id, provider
payment id (`transactionId`) and receipt.  In the shipped handler that
construction sits on an unreachable branch (see `verifyPayment`); the
collection may still hold rows of this shape committed earlier. -/
structure PaymentRecord where
  userId : String
  clerkUserId : String
  amount : ℚ
  currency : String
  status : PaymentStatus
  orderId : String
  transactionId : String
  receipt : String
deriving DecidableEq, Repr

/-- An order held by the payment provider, as created by
`razorpay.orders.create` from the `options` built in `POST /api/create-order`:
id, amount in minor units (paise), currency, receipt string, and the
`notes.clerkUserId` tag used for identity reconciliation. -/
structure RazorpayOrder where
  id : String
  amount : ℤ
  currency : String
  receipt : String
  notesClerkUserId : Option String
deriving DecidableEq, Repr

/-- The server's persistent state: the `User`, `Message` and `Payment`
MongoDB collections. -/
structure ServerState where
  users : List Account
  messages : List ChatMessage
  payments : List PaymentRecord
deriving DecidableEq, Repr

/-- JavaScript falsiness of an optional string body/path field: the field is
falsy when absent (`undefined`) or the empty string, which is what guards of
the form `if (!field)` test in `src/server.js`. -/
def strFalsy : Option String → Bool
  | none => true
  | some s => s == ""

/-- `Math.round` on an exact rational input: round half towards positive
infinity (used in `POST /api/create-order` for `Math.round(amount * 100)`). -/
def jsRound (q : ℚ) : ℤ := ⌊q + 1 / 2⌋

/-! ### GET /api/user/:clerkUserId — identity resolution -/

/-- A freshly created `User` document: `new User({ clerkUserId })` with the
schema defaults `subscriptionStatus: "free"` and `chatAttempts: 0`
(`src/models/user.js` lines 3-9). -/
def freshAccount (clerkUserId : String) : Account :=
  { clerkUserId := clerkUserId
    subscriptionStatus := .free
    chatAttempts := 0 }

/-- `GET /api/user/:clerkUserId` (`src/server.js` lines 177-201):
reject an empty id with 400, otherwise return the existing `User` document,
or create one with the schema defaults (`subscriptionStatus: "free"`,
`chatAttempts: 0`) and persist it before returning.  The error value is the
HTTP status code. -/
def getOrCreateUser (st : ServerState) (clerkUserId : String) :
    Except Nat (Account × ServerState) :=
  if clerkUserId == "" then .error 400
  else
    match st.users.find? (fun u => u.clerkUserId == clerkUserId) with
    | some user => .ok (user, st)
    | none =>
        let user : Account := freshAccount clerkUserId
        .ok (user, { st with users := st.users ++ [user] })

/-! ### POST /api/messages — gated message append -/

/-- Result of `POST /api/messages`: 400 missing fields, 404 unknown user,
403 free-tier limit reached, or 201 with the created message. -/
inductive MessagesResult where
  | missingFields
  | userNotFound
  | limitReached
  | created (m : ChatMessage)
deriving DecidableEq, Repr

/-- `POST /api/messages` (`src/server.js` lines 204-246).  Body fields
`clerkUserId` and `message` are optional strings (`!x` guards), `isFromUser`
defaults to `true`; `now` is the server clock used for the saved message's
timestamp.  For a user-originated turn of a free user at or above 6 attempts
the request is rejected with 403 and nothing is persisted; otherwise the
message is appended and, for a user-originated turn of a free user, the
user's `chatAttempts` counter is incremented and saved. -/
def postMessage (st : ServerState) (clerkUserId message : Option String)
    (isFromUser : Bool) (now : Nat) : MessagesResult × ServerState :=
  if strFalsy clerkUserId || strFalsy message then (.missingFields, st)
  else
    match st.users.find? (fun u => u.clerkUserId == clerkUserId.getD "") with
    | none => (.userNotFound, st)
    | some user =>
        if isFromUser && user.subscriptionStatus == .free
            && decide (user.chatAttempts ≥ 6) then
          (.limitReached, st)
        else
          let newMessage : ChatMessage :=
            { userId := user.clerkUserId
              message := message.getD ""
              isFromUser := isFromUser
              timestamp := now }
          let st1 : ServerState :=
            { st with messages := st.messages ++ [newMessage] }
          let st2 : ServerState :=
            if isFromUser && user.subscriptionStatus == .free then
              { st1 with
                users := st1.users.map (fun u =>
                  if u.clerkUserId == user.clerkUserId then
                    { u with chatAttempts := u.chatAttempts + 1 }
                  else u) }
            else st1
          (.created newMessage, st2)

/-- The entitlement gate of `POST /api/messages` as a predicate on the
account: a user-originated turn is allowed unless the account is free-tier
with `chatAttempts ≥ 6` (`src/server.js` line 218). -/
def canSendUserTurn (u : Account) : Bool :=
  !(u.subscriptionStatus == .free && decide (u.chatAttempts ≥ 6))

/-! ### GET /api/messages/:clerkUserId — chat history -/

/-- Timestamp order on stored messages, the sort key of
`Message.find({...}).sort({ timestamp: 1 })`. -/
def tsLe (a b : ChatMessage) : Prop := a.timestamp ≤ b.timestamp

instance : DecidableRel tsLe := fun a b => Nat.decLe a.timestamp b.timestamp

instance : IsTotal ChatMessage tsLe :=
  ⟨fun a b => Nat.le_total a.timestamp b.timestamp⟩

instance : IsTrans ChatMessage tsLe :=
  ⟨fun _ _ _ h h' => Nat.le_trans h h'⟩

/-- `GET /api/messages/:clerkUserId` (`src/server.js` lines 250-268):
400 on an empty id, 404 when the user is unknown, otherwise the user's
messages sorted by ascending timestamp. -/
def getHistory (st : ServerState) (clerkUserId : String) :
    Except Nat (List ChatMessage) :=
  if clerkUserId == "" then .error 400
  else
    match st.users.find? (fun u => u.clerkUserId == clerkUserId) with
    | none => .error 404
    | some user =>
        .ok (((st.messages.filter (fun m => m.userId == user.clerkUserId))).insertionSort tsLe)

/-! ### POST /api/create-order — order issuance -/

/-- Result of `POST /api/create-order`: 400 invalid/missing amount, 400
missing `clerkUserId`, 404 unknown user, or the order created at the
provider. -/
inductive CreateOrderResult where
  | invalidAmount
  | missingClerkUserId
  | userNotFound
  | created (o : RazorpayOrder)
deriving DecidableEq, Repr

/-- `POST /api/create-order` (`src/server.js` lines 271-308).  The body
carries an optional numeric `amount` (major currency units), an optional
`currency` defaulting to `"INR"`, and an optional `clerkUserId`.  Rejects a
missing or non-positive amount with 400 and a missing `clerkUserId` with
400, requires the user to exist, then asks the provider to create an order
of `Math.round(amount * 100)` minor units with a
`receipt_<clerkUserId>_<now>` receipt and `notes.clerkUserId` set.
`newOrderId` stands for the id the provider assigns; the provider's order
store is the `provider` list, to which the new order is appended. -/
def createOrder (st : ServerState) (provider : List RazorpayOrder)
    (amount : Option ℚ) (currency : Option String) (clerkUserId : Option String)
    (newOrderId : String) (now : Nat) :
    CreateOrderResult × List RazorpayOrder :=
  match amount with
  | none => (.invalidAmount, provider)
  | some a =>
      if a ≤ 0 then (.invalidAmount, provider)
      else if strFalsy clerkUserId then (.missingClerkUserId, provider)
      else
        let cid := clerkUserId.getD ""
        match st.users.find? (fun u => u.clerkUserId == cid) with
        | none => (.userNotFound, provider)
        | some _ =>
            let order : RazorpayOrder :=
              { id := newOrderId
                amount := jsRound (a * 100)
                currency := currency.getD "INR"
                receipt := "receipt_" ++ cid ++ "_" ++ toString now
                notesClerkUserId := some cid }
            (.created order, provider ++ [order])

/-! ### POST /api/verify-payment — the payment verifier -/

/-- Result of `POST /api/verify-payment` as the shipped handler can
actually produce it: the 400 missing-fields reply (line 316), or the 500
catch-all reply (lines 383-387) raised when line 322 evaluates
`crypto.createHmac` — `src/server.js` never imports Node's `crypto`
module, so the identifier resolves at best to the global WebCrypto object,
which has no `createHmac`, and the statement throws.  Both replies carry
`success: false`. -/
inductive VerifyResult where
  | missingFields
  | serverError
deriving DecidableEq, Repr

/-- The `success` field of the `POST /api/verify-payment` response:
`false` in the 400 missing-fields reply (line 317) and `false` in the 500
catch-all reply (line 386). -/
def VerifyResult.success : VerifyResult → Bool
  | .missingFields => false
  | .serverError => false

/-- Upgrading an account as spelled out at `src/server.js` lines 356-357:
`subscriptionStatus = "pro"`, `chatAttempts = 0`.  (In the shipped handler
the commit branch that would run these assignments is unreachable — see
`verifyPayment` — but the operation itself is exactly these two
assignments.) -/
def upgradeAccount (u : Account) : Account :=
  { u with subscriptionStatus := .pro, chatAttempts := 0 }

/-- `POST /api/verify-payment` (`src/server.js` lines 313-388).  The
handler rejects a request missing any of `razorpay_payment_id`,
`razorpay_order_id`, `razorpay_signature`, `clerkUserId` with 400
(lines 316-318).  Its next statement (line 322) reads
`crypto.createHmac`, but `server.js` never imports Node's `crypto`
module, so the statement throws before anything is read or written and
the `catch` (lines 383-387) replies with status 500 and `success: false`
(a thrown `TypeError`/`ReferenceError` has no `statusCode`, so
`error.statusCode || 500` is 500).  Every later branch — the signature
comparison (327), order fetch (332), identity check (339-345), user
lookup (348) and the upgrade-and-record commit (355-377) — is dead code.
`provider` is the payment provider's order store that the unreachable
`razorpay.orders.fetch` would consult; the handler never reads it. -/
def verifyPayment (st : ServerState) (_provider : List RazorpayOrder)
    (razorpay_payment_id razorpay_order_id razorpay_signature
      clerkUserId : Option String) : VerifyResult × ServerState :=
  if strFalsy razorpay_payment_id || strFalsy razorpay_order_id
      || strFalsy razorpay_signature || strFalsy clerkUserId then
    (.missingFields, st)
  else
    (.serverError, st)

/-! ### Concrete fixtures used by witnesses and counterexamples -/

/-- A free-tier account with three used attempts. -/
def acct1 : Account :=
  { clerkUserId := "u1", subscriptionStatus := .free, chatAttempts := 3 }

/-- A free-tier account that has exhausted the free quota. -/
def acctAtLimit : Account :=
  { clerkUserId := "u6", subscriptionStatus := .free, chatAttempts := 6 }

/-- A small server state holding the two fixture accounts. -/
def stW : ServerState :=
  { users := [acct1, acctAtLimit], messages := [], payments := [] }

/-- The provider-side order produced for `acct1` by
`createOrder` with amount `50000` at time `7`. -/
def ordW : RazorpayOrder :=
  { id := "ord1", amount := 5000000, currency := "INR",
    receipt := "receipt_u1_7", notesClerkUserId := some "u1" }

/-- The `u1` account already upgraded: Pro tier with a reset counter. -/
def acct1Pro : Account :=
  { clerkUserId := "u1", subscriptionStatus := .pro, chatAttempts := 0 }

/-- A completed payment record for payment `pay1` of order `ord1`, standing
for a row of the `Payment` collection committed at some earlier time. -/
def prevPayment : PaymentRecord :=
  { userId := "u1", clerkUserId := "u1", amount := 50000,
    currency := "INR", status := .completed, orderId := "ord1",
    transactionId := "pay1", receipt := "receipt_u1_7" }

/-- A server state in which payment `pay1` is already committed for the
upgraded `u1`. -/
def stPrev : ServerState :=
  { users := [acct1Pro, acctAtLimit], messages := [],
    payments := [prevPayment] }

/-- The provider-side order that `createOrder` builds for amount `50000`,
currency `"INR"`, caller `cid`, provider-assigned id `newOrderId` and
receipt time `now`. -/
def orderFor (cid newOrderId : String) (now : Nat) : RazorpayOrder :=
  { id := newOrderId
    amount := 5000000
    currency := "INR"
    receipt := "receipt_" ++ cid ++ "_" ++ toString now
    notesClerkUserId := some cid }

/-- A batch of user-originated `POST /api/messages` requests — each a
triple of `clerkUserId`, message content and server time — applied to the
state in sequence, every one gated by the free-quota check inside
`postMessage`. -/
def runUserTurns (st : ServerState) :
    List (String × String × Nat) → ServerState
  | [] => st
  | (cid, m, t) :: rest =>
      runUserTurns (postMessage st (some cid) (some m) true t).2 rest

/-- The free-quota invariant: every free-tier account has recorded at most
6 attempts. -/
def freeQuotaInv (st : ServerState) : Prop :=
  ∀ u ∈ st.users, u.subscriptionStatus = .free → u.chatAttempts ≤ 6

instance (st : ServerState) : Decidable (freeQuotaInv st) :=
  inferInstanceAs (Decidable (∀ u ∈ st.users,
    u.subscriptionStatus = .free → u.chatAttempts ≤ 6))

/-- Uniqueness of `clerkUserId` across the `User` collection — the
`unique: true` constraint of `userSchema`. -/
def usersUnique (st : ServerState) : Prop :=
  st.users.Pairwise (fun a b => a.clerkUserId ≠ b.clerkUserId)

instance (st : ServerState) : Decidable (usersUnique st) := by
  unfold usersUnique
  infer_instance

/-- Stored chat turns of two accounts, out of order, used by the history
witness. -/
def msgsW : List ChatMessage :=
  [⟨"u1", "b", true, 5⟩, ⟨"u1", "a", false, 2⟩,
   ⟨"u2", "x", true, 1⟩, ⟨"u1", "c", true, 3⟩]

/-- A fixture state holding the two fixture accounts and the out-of-order
chat turns. -/
def stH : ServerState :=
  { users := [acct1, acctAtLimit], messages := msgsW, payments := [] }

/-- Eight consecutive user-originated requests from `u1`, two more than
the free quota admits. -/
def reqs8 : List (String × String × Nat) :=
  [("u1", "m1", 1), ("u1", "m2", 2), ("u1", "m3", 3), ("u1", "m4", 4),
   ("u1", "m5", 5), ("u1", "m6", 6), ("u1", "m7", 7), ("u1", "m8", 8)]

/-! ### Claim theorems -/

/-- Claim C8: applying the upgrade operation twice yields exactly the same
account state as applying it once, namely tier Pro and usage count 0:
upgrading is idempotent. -/
theorem upgradeAccount_idempotent (u : Account) :
    upgradeAccount (upgradeAccount u) = upgradeAccount u ∧
    (upgradeAccount u).subscriptionStatus = .pro ∧
    (upgradeAccount u).chatAttempts = 0 :=
  ⟨rfl, rfl, rfl⟩

/-- Claim C10: a `POST /api/messages` request whose message content is
absent or the empty string is rejected with 400 (`missingFields`) before
any quota check, persistence or counter change — for any originator flag —
so the state is returned untouched and no chat turn with empty content is
ever stored. -/
theorem postMessage_missing_content_rejected (st : ServerState)
    (clerkUserId message : Option String) (isFromUser : Bool) (now : Nat)
    (hmsg : message = none ∨ message = some "") :
    postMessage st clerkUserId message isFromUser now
      = (.missingFields, st) := by
  rcases hmsg with h | h <;> subst h <;>
    simp [postMessage, strFalsy]

/-- Witness for C10 at a concrete input: an assistant-originated request
with empty content against the fixture state is rejected with the state
unchanged. -/
theorem postMessage_missing_content_rejected_witness :
    ((some "" : Option String) = none ∨ (some "" : Option String) = some "") ∧
    postMessage stW (some "u1") (some "") false 5
      = (.missingFields, stW) :=
  ⟨Or.inr rfl,
    postMessage_missing_content_rejected stW (some "u1") (some "") false 5
      (Or.inr rfl)⟩

/-- Claim C1 (code evaluation at the failing input): a well-formed
verify-payment request carrying a tampered signature never produces the
400 InvalidSignature rejection the claim describes — `crypto` is not
imported, so the handler throws at line 322 and the catch-all replies
500 — though `success` is `false` and no state is persisted. -/
theorem verifyPayment_tampered_signature_500 :
    verifyPayment stW [ordW] (some "pay1") (some "ord1") (some "bad")
        (some "u1") = (.serverError, stW) ∧
    (verifyPayment stW [ordW] (some "pay1") (some "ord1") (some "bad")
        (some "u1")).1.success = false := by decide

/-- Claim C2 (code evaluation at the failing input): a well-formed request
claiming `u6` against the provider order tagged `u1` never reaches the
identity comparison — the handler throws at the uninported
`crypto.createHmac` and replies 500 — so the 400 IdentityMismatch
rejection the claim describes is unreachable; the state is still
unchanged. -/
theorem verifyPayment_identity_mismatch_500 :
    ordW.notesClerkUserId = some "u1" ∧
    verifyPayment stW [ordW] (some "pay1") (some "ord1") (some "sig1")
        (some "u6") = (.serverError, stW) ∧
    (verifyPayment stW [ordW] (some "pay1") (some "ord1") (some "sig1")
        (some "u6")).1.success = false := by decide

/-- Claim C5: for a known account, a user-originated `POST /api/messages`
request from a free-tier account with 6 used attempts is rejected with 403
(`limitReached`) and the state — including the attempt counter — is
unchanged; and a user-originated turn is accepted (201, `created`) exactly
when the account is Pro, or Free with fewer than 6 used attempts, i.e.
exactly when `canSendUserTurn` holds. -/
theorem postMessage_free_quota_gate (st : ServerState) (cid m : String)
    (now : Nat) (user : Account) (hcid : cid ≠ "") (hm : m ≠ "")
    (hfound : st.users.find? (fun u => u.clerkUserId == cid) = some user) :
    (user.subscriptionStatus = .free → user.chatAttempts = 6 →
       postMessage st (some cid) (some m) true now = (.limitReached, st)) ∧
    ((∃ msg, (postMessage st (some cid) (some m) true now).1
        = MessagesResult.created msg) ↔
      (user.subscriptionStatus = .pro ∨
        (user.subscriptionStatus = .free ∧ user.chatAttempts < 6))) ∧
    ((∃ msg, (postMessage st (some cid) (some m) true now).1
        = MessagesResult.created msg) ↔ canSendUserTurn user = true) := by
  have hchar : canSendUserTurn user = true ↔
      (user.subscriptionStatus = .pro ∨
        (user.subscriptionStatus = .free ∧ user.chatAttempts < 6)) := by
    rcases hs : user.subscriptionStatus <;>
      simp [canSendUserTurn, hs]
  have hiff : (∃ msg, (postMessage st (some cid) (some m) true now).1
      = MessagesResult.created msg) ↔ canSendUserTurn user = true := by
    by_cases hcs : canSendUserTurn user = true
    · have hb : (user.subscriptionStatus == SubscriptionStatus.free
          && decide (user.chatAttempts ≥ 6)) = false := by
        have h0 : (!(user.subscriptionStatus == SubscriptionStatus.free
            && decide (user.chatAttempts ≥ 6))) = true := hcs
        exact (Bool.not_eq_true' _).mp h0
      refine iff_of_true ⟨⟨user.clerkUserId, m, true, now⟩, ?_⟩ hcs
      simp [postMessage, strFalsy, hcid, hm, hfound, hb]
    · have hb : (user.subscriptionStatus = SubscriptionStatus.free
          ∧ user.chatAttempts ≥ 6) := by
        have h0 := Bool.not_eq_true (canSendUserTurn user) |>.mp hcs
        simpa [canSendUserTurn] using h0
      refine iff_of_false ?_ hcs
      rintro ⟨msg, hmsg⟩
      rw [show postMessage st (some cid) (some m) true now
          = (.limitReached, st) from by
        simp [postMessage, strFalsy, hcid, hm, hfound, hb.1, hb.2]] at hmsg
      cases hmsg
  refine ⟨?_, hiff.trans hchar, hiff⟩
  intro hfree h6
  simp [postMessage, strFalsy, hcid, hm, hfound, hfree, h6]

/-- Witness for C5 at a concrete input: the fixture account `u6` (free tier,
6 attempts) has its user-originated message rejected with the state
unchanged. -/
theorem postMessage_free_quota_gate_witness :
    ("u6" : String) ≠ "" ∧ ("hi" : String) ≠ "" ∧
    stW.users.find? (fun u => u.clerkUserId == "u6") = some acctAtLimit ∧
    postMessage stW (some "u6") (some "hi") true 1
      = (.limitReached, stW) :=
  ⟨by decide, by decide, by decide,
    (postMessage_free_quota_gate stW "u6" "hi" 1 acctAtLimit
      (by decide) (by decide) (by decide)).1 rfl rfl⟩

/-- Counterexample to claim C3 as stated: with payment `pay1` already
committed, re-submitting the same payload does not report success — the
handler replies with the 500 catch-all (`success = false`), and it is a
persistence no-op only because it fails before touching any state. -/
theorem verifyPayment_redelivery_reports_failure :
    (∃ p ∈ stPrev.payments, p.transactionId = "pay1") ∧
    (verifyPayment stPrev [ordW] (some "pay1") (some "ord1") (some "sig1")
        (some "u1")).1.success = false ∧
    verifyPayment stPrev [ordW] (some "pay1") (some "ord1") (some "sig1")
        (some "u1") = (.serverError, stPrev) := by decide

/-- Claim C3 (amended): re-submitting an already-committed verification
payload (same `providerPaymentId`) indeed creates no second
`PaymentRecord` and alters no account — but not as a successful no-op:
the handler throws at the uninported `crypto.createHmac` before any
duplicate check or commit could run, so it replies with a 500 server
error and `success = false` rather than reporting success. -/
theorem verifyPayment_redelivery_noop_but_fails
    (st : ServerState) (provider : List RazorpayOrder)
    (pid oid sig cid : String)
    (hpid : pid ≠ "") (hoid : oid ≠ "") (hsig : sig ≠ "") (hcid : cid ≠ "")
    (_hprev : ∃ p ∈ st.payments, p.transactionId = pid) :
    verifyPayment st provider (some pid) (some oid) (some sig) (some cid)
      = (.serverError, st) ∧
    VerifyResult.serverError.success = false := by
  refine ⟨?_, rfl⟩
  simp [verifyPayment, strFalsy, hpid, hoid, hsig, hcid]

/-- Witness for the amended C3 at a concrete input: re-playing the already
committed `pay1` payload against the post-commit fixture state fails with
the 500 catch-all and leaves the state exactly as it was. -/
theorem verifyPayment_redelivery_noop_but_fails_witness :
    (∃ p ∈ stPrev.payments, p.transactionId = "pay1") ∧
    (verifyPayment stPrev [ordW] (some "pay1") (some "ord1") (some "sig1")
        (some "u1") = (.serverError, stPrev) ∧
     VerifyResult.serverError.success = false) :=
  ⟨by decide,
    verifyPayment_redelivery_noop_but_fails stPrev [ordW] "pay1" "ord1"
      "sig1" "u1" (by decide) (by decide) (by decide) (by decide)
      (by decide)⟩

/-- Claim C4 (code evaluation at the failing input): the create-order half
of the scenario works — amount 50000 yields the provider order of 5000000
paise tagged `u1` — but no verify-payment request for that order can reach
the upgrade-and-record branch: the handler throws at the uninported
`crypto.createHmac` and replies 500 with the state unchanged, so `u1` is
never upgraded and no `PaymentRecord` is ever appended by this endpoint. -/
theorem createOrder_then_verifyPayment_500 :
    createOrder stW [] (some 50000) (some "INR") (some "u1") "ord1" 7
      = (.created (orderFor "u1" "ord1" 7), [orderFor "u1" "ord1" 7]) ∧
    (orderFor "u1" "ord1" 7).notesClerkUserId = some "u1" ∧
    (orderFor "u1" "ord1" 7).amount = 5000000 ∧
    verifyPayment stW [orderFor "u1" "ord1" 7] (some "pay1") (some "ord1")
        (some "sig1") (some "u1") = (.serverError, stW) ∧
    (verifyPayment stW [orderFor "u1" "ord1" 7] (some "pay1")
        (some "ord1") (some "sig1") (some "u1")).1.success = false := by
  have hround : jsRound ((50000 : ℚ) * 100) = 5000000 := by
    norm_num [jsRound]
  refine ⟨?_, rfl, rfl, by decide, rfl⟩
  simp only [createOrder, strFalsy, Option.getD_some]
  rw [if_neg (by norm_num), if_neg (by decide),
    show stW.users.find? (fun u => u.clerkUserId == "u1") = some acct1 from
      by decide, hround]
  rfl

/-- In a list of accounts with pairwise-distinct `clerkUserId`s that
contains an account `u` whose id is `cid`, exactly one element carries the
id `cid`. -/
theorem countP_clerkUserId_eq_one (u : Account) (cid : String)
    (hid : u.clerkUserId = cid) :
    ∀ l : List Account,
      l.Pairwise (fun a b => a.clerkUserId ≠ b.clerkUserId) → u ∈ l →
      l.countP (fun v => v.clerkUserId == cid) = 1 := by
  intro l
  induction l with
  | nil => intro _ hu; cases hu
  | cons a t ih =>
    intro huniq hu
    rcases List.pairwise_cons.mp huniq with ⟨ha, ht⟩
    rcases List.mem_cons.mp hu with rfl | hmem
    · have hz : t.countP (fun v => v.clerkUserId == cid) = 0 :=
        List.countP_eq_zero.mpr (fun v hv hbeq =>
          (ha v hv) ((beq_iff_eq.mp hbeq).trans hid.symm).symm)
      rw [List.countP_cons, hz]
      simp [hid]
    · have hpa : ¬(a.clerkUserId == cid) = true := fun hbeq =>
        (ha u hmem) ((beq_iff_eq.mp hbeq).trans hid.symm)
      rw [List.countP_cons, ih ht hmem]
      simp [hpa]

/-- Claim C7: resolving an unseen `clerkUserId` creates and persists
exactly one account with tier Free and 0 attempts before returning it —
afterwards that id resolves to the new account and exactly one account
carries it — while resolving a known id returns the stored account with
the state untouched, and in both cases exactly one account per id is
preserved. -/
theorem getOrCreateUser_resolves_unique (st : ServerState) (cid : String)
    (hcid : cid ≠ "")
    (huniq : st.users.Pairwise (fun a b => a.clerkUserId ≠ b.clerkUserId)) :
    (st.users.find? (fun u => u.clerkUserId == cid) = none →
      ∃ st2 : ServerState,
        getOrCreateUser st cid = .ok (freshAccount cid, st2) ∧
        (freshAccount cid).subscriptionStatus = .free ∧
        (freshAccount cid).chatAttempts = 0 ∧
        st2.users = st.users ++ [freshAccount cid] ∧
        st2.users.find? (fun u => u.clerkUserId == cid)
          = some (freshAccount cid) ∧
        st2.users.Pairwise (fun a b => a.clerkUserId ≠ b.clerkUserId) ∧
        st2.users.countP (fun u => u.clerkUserId == cid) = 1 ∧
        st2.messages = st.messages ∧ st2.payments = st.payments) ∧
    (∀ u, st.users.find? (fun v => v.clerkUserId == cid) = some u →
      getOrCreateUser st cid = .ok (u, st) ∧
      st.users.countP (fun v => v.clerkUserId == cid) = 1) := by
  constructor
  · intro hnone
    have hfresh : ∀ x ∈ st.users, x.clerkUserId ≠ cid := by
      intro x hx
      have hnp := List.find?_eq_none.mp hnone x hx
      simpa using hnp
    refine ⟨{ st with users := st.users ++ [freshAccount cid] },
      ?_, rfl, rfl, rfl, ?_, ?_, ?_, rfl, rfl⟩
    · simp [getOrCreateUser, hcid, hnone]
    · rw [List.find?_append, hnone]
      simp [freshAccount]
    · refine List.pairwise_append.mpr ⟨huniq, List.pairwise_singleton _ _, ?_⟩
      intro a ha b hb
      rcases List.mem_singleton.mp hb with rfl
      exact hfresh a ha
    · rw [List.countP_append]
      rw [List.countP_eq_zero.mpr (fun x hx hbeq =>
        hfresh x hx (beq_iff_eq.mp hbeq))]
      simp [freshAccount]
  · intro u hsome
    refine ⟨by simp [getOrCreateUser, hcid, hsome], ?_⟩
    have hid : u.clerkUserId = cid := by
      have h2 := List.find?_some hsome
      simpa using h2
    exact countP_clerkUserId_eq_one u cid hid st.users huniq
      (List.mem_of_find?_eq_some hsome)

/-- Witness for C7 at a concrete input: the unseen id `u9` creates a fresh
Free/0 account in the fixture state, and the known id `u1` resolves to the
stored `acct1` leaving the state untouched. -/
theorem getOrCreateUser_resolves_unique_witness :
    ("u9" : String) ≠ "" ∧
    stW.users.Pairwise (fun a b => a.clerkUserId ≠ b.clerkUserId) ∧
    (∃ st2 : ServerState,
      getOrCreateUser stW "u9" = .ok (freshAccount "u9", st2) ∧
      (freshAccount "u9").subscriptionStatus = .free ∧
      (freshAccount "u9").chatAttempts = 0 ∧
      st2.users = stW.users ++ [freshAccount "u9"] ∧
      st2.users.find? (fun u => u.clerkUserId == "u9")
        = some (freshAccount "u9") ∧
      st2.users.Pairwise (fun a b => a.clerkUserId ≠ b.clerkUserId) ∧
      st2.users.countP (fun u => u.clerkUserId == "u9") = 1 ∧
      st2.messages = stW.messages ∧ st2.payments = stW.payments) ∧
    (getOrCreateUser stW "u1" = .ok (acct1, stW) ∧
      stW.users.countP (fun v => v.clerkUserId == "u1") = 1) :=
  ⟨by decide, by decide,
    (getOrCreateUser_resolves_unique stW "u9" (by decide) (by decide)).1
      (by decide),
    (getOrCreateUser_resolves_unique stW "u1" (by decide) (by decide)).2
      acct1 (by decide)⟩

/-- Two members of an account list with pairwise-distinct ids that share a
`clerkUserId` are the same account. -/
theorem eq_of_mem_unique (u v : Account)
    (hid : u.clerkUserId = v.clerkUserId) :
    ∀ l : List Account,
      l.Pairwise (fun a b => a.clerkUserId ≠ b.clerkUserId) →
      u ∈ l → v ∈ l → u = v := by
  intro l
  induction l with
  | nil => intro _ hu _; cases hu
  | cons a t ih =>
    intro huniq hu hv
    rcases List.pairwise_cons.mp huniq with ⟨ha, ht⟩
    rcases List.mem_cons.mp hu with rfl | hu2
    · rcases List.mem_cons.mp hv with rfl | hv2
      · rfl
      · exact absurd hid (ha v hv2)
    · rcases List.mem_cons.mp hv with rfl | hv2
      · exact absurd hid.symm (ha u hu2)
      · exact ih ht hu2 hv2

/-- One gated `POST /api/messages` user turn preserves both the id
uniqueness of the `User` collection and the free-quota invariant. -/
theorem postMessage_preserves_quota (st : ServerState)
    (clerkUserId message : Option String) (now : Nat)
    (huniq : usersUnique st) (hinv : freeQuotaInv st) :
    usersUnique (postMessage st clerkUserId message true now).2 ∧
    freeQuotaInv (postMessage st clerkUserId message true now).2 := by
  unfold postMessage
  split
  · exact ⟨huniq, hinv⟩
  · split
    · exact ⟨huniq, hinv⟩
    · rename_i user hfind
      split
      · exact ⟨huniq, hinv⟩
      · rename_i hgate
        dsimp only
        split
        · rename_i hb
          have hfree : (user.subscriptionStatus
              == SubscriptionStatus.free) = true := by
            simpa using hb
          have hlt : user.chatAttempts < 6 := by
            by_contra hge
            exact hgate (by simp [hfree, Nat.not_lt.mp hge])
          have husermem : user ∈ st.users :=
            List.mem_of_find?_eq_some hfind
          constructor
          · refine List.pairwise_map.mpr (huniq.imp ?_)
            intro a b hab
            by_cases h1 : a.clerkUserId == user.clerkUserId <;>
              by_cases h2 : b.clerkUserId == user.clerkUserId <;>
              simpa [h1, h2] using hab
          · intro v hv
            rcases List.mem_map.mp hv with ⟨u, hu, heq⟩
            have heq2 : (if u.clerkUserId == user.clerkUserId then
                { u with chatAttempts := u.chatAttempts + 1 } else u)
                = v := heq
            by_cases h : u.clerkUserId == user.clerkUserId
            · rw [if_pos h] at heq2
              subst heq2
              intro _
              have hequ : u = user :=
                eq_of_mem_unique u user (beq_iff_eq.mp h) st.users huniq
                  hu husermem
              subst hequ
              show u.chatAttempts + 1 ≤ 6
              omega
            · rw [if_neg h] at heq2
              subst heq2
              exact hinv u hu
        · exact ⟨huniq, hinv⟩

/-- Claim C6: starting from a `User` collection with unique ids in which
every free-tier account has at most 6 recorded attempts (as all reachable
states do — accounts are created with 0 and reset to 0 on upgrade), any
finite sequence of user-originated `POST /api/messages` requests, each
gated by the free-quota check, leaves every free-tier account with at most
6 attempts: `usageCount` never exceeds the quota. -/
theorem runUserTurns_free_quota_bounded
    (reqs : List (String × String × Nat)) :
    ∀ st : ServerState, usersUnique st → freeQuotaInv st →
      freeQuotaInv (runUserTurns st reqs) ∧
      usersUnique (runUserTurns st reqs) := by
  induction reqs with
  | nil => intro st h1 h2; exact ⟨h2, h1⟩
  | cons r rest ih =>
    intro st h1 h2
    rcases r with ⟨cid, m, t⟩
    have hstep := postMessage_preserves_quota st (some cid) (some m) t h1 h2
    simpa only [runUserTurns] using ih _ hstep.1 hstep.2

/-- Witness for C6 at a concrete input: eight consecutive user turns from
the fresh-ish fixture state leave every free account at or below the
quota (in fact `u1` ends exactly at 6). -/
theorem runUserTurns_free_quota_bounded_witness :
    usersUnique stW ∧ freeQuotaInv stW ∧
    freeQuotaInv (runUserTurns stW reqs8) ∧
    usersUnique (runUserTurns stW reqs8) :=
  ⟨by decide, by decide,
    runUserTurns_free_quota_bounded reqs8 stW (by decide) (by decide)⟩

/-- Claim C9: for a known account, `GET /api/messages/:clerkUserId`
returns exactly that account's stored turns (a permutation of the filtered
message collection) sorted in ascending timestamp order — the empty list
when the account has no turns — and fails with 404 for an unknown id. -/
theorem getHistory_sorted_complete (st : ServerState) (cid : String)
    (hcid : cid ≠ "") :
    (∀ user, st.users.find? (fun u => u.clerkUserId == cid) = some user →
      ∃ l, getHistory st cid = .ok l ∧
        l.Perm (st.messages.filter (fun m => m.userId == user.clerkUserId)) ∧
        List.Sorted tsLe l ∧
        (st.messages.filter (fun m => m.userId == user.clerkUserId) = [] →
          l = [])) ∧
    (st.users.find? (fun u => u.clerkUserId == cid) = none →
      getHistory st cid = .error 404) := by
  constructor
  · intro user huser
    refine ⟨_, ?_, List.perm_insertionSort tsLe _,
      List.sorted_insertionSort tsLe _, ?_⟩
    · simp [getHistory, hcid, huser]
    · intro h0
      rw [h0]
      rfl
  · intro hnone
    simp [getHistory, hcid, hnone]

/-- Witness for C9 at concrete inputs: the history of `u1` in the fixture
state is its three turns in ascending timestamp order, and the unknown id
`zz` yields 404. -/
theorem getHistory_sorted_complete_witness :
    ("u1" : String) ≠ "" ∧
    stH.users.find? (fun u => u.clerkUserId == "u1") = some acct1 ∧
    (∃ l, getHistory stH "u1" = .ok l ∧
      l.Perm (stH.messages.filter
        (fun m => m.userId == acct1.clerkUserId)) ∧
      List.Sorted tsLe l ∧
      (stH.messages.filter (fun m => m.userId == acct1.clerkUserId) = [] →
        l = [])) ∧
    stH.users.find? (fun u => u.clerkUserId == "zz") = none ∧
    getHistory stH "zz" = .error 404 :=
  ⟨by decide, by decide,
    (getHistory_sorted_complete stH "u1" (by decide)).1 acct1 (by decide),
    by decide,
    (getHistory_sorted_complete stH "zz" (by decide)).2 (by decide)⟩

end BrainHouse
